import Mathlib

/-!
Verification of the `inkscape-mcp` Zed extension (`src/lib.rs`).

The extension consists of a single method, `context_server_command`, on the
fieldless struct `InkscapeMcpExtension`.  Given a `ContextServerId` (a newtype
over a string) and a project handle, it returns the fixed launch command
`uv run inkscape-mcp` when the id is exactly `"inkscape-mcp"`, and otherwise
fails with the message `"Unknown server: <id>"`.

The Rust method takes `&mut self`; we embed it as explicit state passing,
returning the (unchanged) extension state together with the result.  The
error type of `zed::Result` is `String`, so failures are embedded as
`Except.error` of a string.  The project argument is ignored by the source
(`_project`), which we embed by quantifying over an arbitrary project type.
-/

namespace InkscapeMcp

/-- `zed::ContextServerId`: a newtype over a string (the source reads `id.0`). -/
structure ContextServerId where
  val : String
deriving DecidableEq, Repr

/-- `zed::Command`: executable name, ordered argument list, and environment
overrides (a list of variable/value pairs; `Default::default()` is empty). -/
structure Command where
  command : String
  args : List String
  env : List (String × String)
deriving DecidableEq, Repr

/-- The extension struct `InkscapeMcpExtension`; it has no fields. -/
structure InkscapeMcpExtension where
deriving DecidableEq, Repr

/-- Embedding of `InkscapeMcpExtension::context_server_command` from
`src/lib.rs` lines 6–19.  The `&mut self` receiver is embedded as explicit
state passing: the method body never touches `self`, so the state is returned
as received.  The two-arm `match` on `id.0.as_str()` (a string-literal pattern
versus the wildcard) is embedded as an equality test. -/
def context_server_command {Project : Type} (ext : InkscapeMcpExtension)
    (id : ContextServerId) (_project : Project) :
    InkscapeMcpExtension × Except String Command :=
  (ext,
    if id.val = "inkscape-mcp" then
      Except.ok { command := "uv"
                  args := ["run", "inkscape-mcp"]
                  env := [] }
    else
      Except.error ("Unknown server: " ++ id.val))

/-- Modelled from the spec (§7 Error Handling Design), which is not a type in
the source: the error kind `UnknownServer`, carrying the offending id as
context. -/
inductive ResolveError where
  | UnknownServer (id : String)
deriving DecidableEq, Repr

/-- Modelled from the spec (§4.1 Command Resolver): the resolver contract
`resolve(id) -> Result<LaunchSpec, Error>` with the structured error kind of
§7, `UnknownServer` carrying the offending id. -/
def resolve_spec (id : String) : Except ResolveError Command :=
  if id = "inkscape-mcp" then
    Except.ok { command := "uv", args := ["run", "inkscape-mcp"], env := [] }
  else
    Except.error (ResolveError.UnknownServer id)

/-- Rendering of the spec-level error kind into the human-readable message the
source produces (`format!("Unknown server: {}", id.0)`). -/
def renderError : ResolveError → String
  | ResolveError.UnknownServer id => "Unknown server: " ++ id

end InkscapeMcp

open InkscapeMcp

/-- C1: for the id `"inkscape-mcp"`, `context_server_command` succeeds and
returns exactly the command `uv` with arguments `["run", "inkscape-mcp"]`
(length 2, in that order) and an empty environment mapping. -/
theorem c1_known_id_success {Project : Type} (ext : InkscapeMcpExtension)
    (p : Project) :
    (context_server_command ext ⟨"inkscape-mcp"⟩ p).2 =
      Except.ok { command := "uv", args := ["run", "inkscape-mcp"], env := [] } := by
  rfl

/-- C2: for every id other than `"inkscape-mcp"`, `context_server_command`
fails with the message `"Unknown server: " ++ id`, hence the message contains
the id verbatim (as a contiguous segment). -/
theorem c2_unknown_id_error {Project : Type} (ext : InkscapeMcpExtension)
    (id : String) (p : Project) (h : id ≠ "inkscape-mcp") :
    (context_server_command ext ⟨id⟩ p).2 =
        Except.error ("Unknown server: " ++ id) ∧
      ∃ before after, "Unknown server: " ++ id = before ++ id ++ after := by
  refine ⟨?_, "Unknown server: ", "", by simp⟩
  simp [context_server_command, h]

/-- Witness for C2 at the concrete id `"other-server"`. -/
theorem c2_unknown_id_error_witness :
    (@context_server_command Unit ⟨⟩ ⟨"other-server"⟩ ()).2 =
        Except.error ("Unknown server: " ++ "other-server") ∧
      ∃ before after,
        "Unknown server: " ++ "other-server" = before ++ "other-server" ++ after :=
  c2_unknown_id_error ⟨⟩ "other-server" () (by decide)

/-- C3: `context_server_command` succeeds if and only if the id equals
`"inkscape-mcp"`; every other id yields an error, and the known id never
fails. -/
theorem c3_success_iff_known_id {Project : Type} (ext : InkscapeMcpExtension)
    (id : String) (p : Project) :
    (∃ c, (context_server_command ext ⟨id⟩ p).2 = Except.ok c) ↔
      id = "inkscape-mcp" := by
  by_cases h : id = "inkscape-mcp" <;>
    simp [context_server_command, h]

/-- C4: resolution is deterministic: calling `context_server_command` a second
time with the same id (threading the state returned by the first call) yields
a result identical by value to the first call's result. -/
theorem c4_deterministic {Project : Type} (ext : InkscapeMcpExtension)
    (id : ContextServerId) (p : Project) :
    (context_server_command (context_server_command ext id p).1 id p).2 =
      (context_server_command ext id p).2 := by
  rfl

/-- C5: `context_server_command` is total: for every id string (no
non-emptiness precondition) and every project, the call returns either a
success or an error. -/
theorem c5_total {Project : Type} (ext : InkscapeMcpExtension) (id : String)
    (p : Project) :
    (∃ c, (context_server_command ext ⟨id⟩ p).2 = Except.ok c) ∨
      (∃ e, (context_server_command ext ⟨id⟩ p).2 = Except.error e) := by
  by_cases h : id = "inkscape-mcp" <;>
    simp [context_server_command, h]

/-- C6: for the empty-string id, `context_server_command` fails with the
message exactly `"Unknown server: "`. -/
theorem c6_empty_id_error {Project : Type} (ext : InkscapeMcpExtension)
    (p : Project) :
    (context_server_command ext ⟨""⟩ p).2 =
      Except.error "Unknown server: " := by
  rfl

/-- C7: whenever `context_server_command` succeeds, the `env` field of the
returned command is the empty mapping. -/
theorem c7_env_empty_on_success {Project : Type} (ext : InkscapeMcpExtension)
    (id : ContextServerId) (p : Project) (c : Command)
    (h : (context_server_command ext id p).2 = Except.ok c) :
    c.env = [] := by
  by_cases hid : id.val = "inkscape-mcp"
  · simp [context_server_command, hid] at h
    simp [← h]
  · simp [context_server_command, hid] at h

/-- Witness for C7 at the concrete id `"inkscape-mcp"`. -/
theorem c7_env_empty_on_success_witness :
    Command.env { command := "uv", args := ["run", "inkscape-mcp"], env := [] } = [] :=
  @c7_env_empty_on_success Unit ⟨⟩ ⟨"inkscape-mcp"⟩ ()
    { command := "uv", args := ["run", "inkscape-mcp"], env := [] } rfl

/-- C8: `context_server_command` has no side effect on the extension's state:
for every id and project, the state returned alongside the result is the state
the call received. -/
theorem c8_state_unchanged {Project : Type} (ext : InkscapeMcpExtension)
    (id : ContextServerId) (p : Project) :
    (context_server_command ext id p).1 = ext := by
  rfl

/-- C9: every failure of `context_server_command` is the rendering of the
spec's distinguished `UnknownServer` error kind carrying the offending id: the
result of the code equals the result of the spec-modelled resolver with its
structured errors rendered to messages, so each failure message determines the
kind and the id. -/
theorem c9_error_is_unknown_server {Project : Type}
    (ext : InkscapeMcpExtension) (id : String) (p : Project) :
    (context_server_command ext ⟨id⟩ p).2 =
      Except.mapError renderError (resolve_spec id) := by
  by_cases h : id = "inkscape-mcp" <;>
    simp [context_server_command, resolve_spec, renderError, h, Except.mapError]

/-- C10: the result of `context_server_command` does not depend on the project
argument: for every id and any two project values, the two calls yield
identical results (state and result alike). -/
theorem c10_project_noninterference {Project : Type}
    (ext : InkscapeMcpExtension) (id : ContextServerId) (p₁ p₂ : Project) :
    context_server_command ext id p₁ = context_server_command ext id p₂ := by
  rfl
